import Mathlib

/- A shallow embedding of the useSocket connection/session manager of the
   chat client: the connection state machine, the reconnection policy with
   exponential backoff and jitter, the room-membership and typing trackers,
   and the optimistic outbound message pipeline with confirmation events
   and per-message failure timers.

   React specifics are modelled explicitly: committed component state lives
   in the SocketState fields, while the stateRef snapshot (kept in sync by
   an effect that runs only after a render commits) is a separate Snapshot
   field, updated only by syncStateRef.  Within one synchronous handler the
   snapshot therefore stays stale, exactly as at runtime. -/

namespace AetherConnect

/-- ConnectionState mirrors the ConnectionState union type of the hook. -/
inductive ConnectionState
  | disconnected
  | connecting
  | connected
  deriving DecidableEq, Repr

/-- MsgStatus mirrors the status field of Message
    (sent is used only by history loading). -/
inductive MsgStatus
  | sending
  | confirmed
  | failed
  | sent
  deriving DecidableEq, Repr

/-- Message mirrors the Message record used by the hook. -/
structure Message where
  id : String
  tempId : Option String
  content : String
  createdAt : String
  userId : String
  username : String
  roomId : String
  messageType : String
  status : MsgStatus
  deriving DecidableEq, Repr

/-- Placeholder message used as the default element for List.getD. -/
def dummyMsg : Message :=
  { id := "", tempId := none, content := "", createdAt := "", userId := ""
  , username := "", roomId := "", messageType := "", status := .sending }

/-- Snapshot mirrors the stateRef ref object
    (connectionState, isAuthenticated, isShutdown). -/
structure Snapshot where
  connectionState : ConnectionState
  isAuthenticated : Bool
  isShutdown : Bool
  deriving DecidableEq, Repr

/-- SocketState gathers the committed React state of the hook together with
    its refs.  Defaults are the initial values of the hook.  socketConnected
    models the transport-level connected flag of the socket object, and
    attemptsStarted counts how many times connectSocket passed its guards
    and actually initiated a transport connection attempt. -/
structure SocketState where
  connectionState : ConnectionState := .disconnected
  realtimeMessages : List Message := []
  typingUsers : List String := []
  reconnectAttempts : Nat := 0
  lastError : Option String := none
  joinedRooms : List String := []
  isShutdown : Bool := false
  failTimers : List String := []
  reconnectTimer : Option ℚ := none
  connectionAttempt : Nat := 0
  isConnecting : Bool := false
  isAuthenticated : Bool := false
  stateRef : Snapshot := ⟨.disconnected, false, false⟩
  socketConnected : Bool := false
  attemptsStarted : Nat := 0
  deriving DecidableEq, Repr

/-- Effect of lines 50-52: copy the committed state into stateRef.  Runs
    after a render commits, never inside a synchronous handler. -/
def syncStateRef (s : SocketState) : SocketState :=
  { s with stateRef := ⟨s.connectionState, s.isAuthenticated, s.isShutdown⟩ }

/-- JavaScript Set.add: append the element if it is not already present. -/
def insertSet (l : List String) (x : String) : List String :=
  if x ∈ l then l else l ++ [x]

/-- JavaScript a || b for an optional string, where the empty string is
    falsy (used for user id / username / messageType defaults). -/
def jsOr (o : Option String) (d : String) : String :=
  match o with
  | some x => if x = "" then d else x
  | none => d

def maxReconnectAttempts : Nat := 5

def maxConnectionAttempts : Nat := 3

/-- Base backoff delay of handleReconnection:
    min(1000 * 2 ^ currentAttempt, 30000). -/
def baseDelay (n : Nat) : ℚ :=
  min ((1000 : ℚ) * 2 ^ n) 30000

/-- Scheduled delay: base delay plus the random jitter (Math.random()*1000,
    passed in explicitly as a value in [0, 1000)). -/
def reconnectDelay (n : Nat) (jit : ℚ) : ℚ :=
  baseDelay n + jit

/-- Embedding of cleanup: cancels every timer, closes the socket and resets
    all derived state; note that it does not touch isShutdown and does not
    clear the message timeline. -/
def cleanup (s : SocketState) : SocketState :=
  { s with reconnectTimer := none
         , failTimers := []
         , isConnecting := false
         , socketConnected := false
         , connectionState := .disconnected
         , joinedRooms := []
         , typingUsers := []
         , reconnectAttempts := 0
         , lastError := none
         , connectionAttempt := 0 }

/-- Embedding of handleReconnection(currentAttempt): clears any pending
    reconnect timer, then either gives up (marking shutdown and cleaning up
    when the ceiling is reached), or schedules a reconnect with the backoff
    delay.  The guards read the stateRef snapshot, as in the source. -/
def handleReconnection (currentAttempt : Nat) (jit : ℚ) (s : SocketState) :
    SocketState :=
  let s1 := { s with reconnectTimer := none }
  if currentAttempt ≥ maxReconnectAttempts ∨
      s1.stateRef.connectionState = .connecting ∨
      s1.stateRef.isShutdown = true then
    if currentAttempt ≥ maxReconnectAttempts ∧ s1.stateRef.isShutdown = false
    then cleanup { s1 with isShutdown := true }
    else s1
  else
    { s1 with reconnectTimer := some (reconnectDelay currentAttempt jit) }

/-- Embedding of the connect transport event handler: resets the reconnect
    and connection attempt counters; the transport flag goes up, but the
    logical connectionState is untouched. -/
def onConnect (s : SocketState) : SocketState :=
  { s with reconnectAttempts := 0, connectionAttempt := 0
         , socketConnected := true }

/-- Embedding of the connected handshake acknowledgement handler: the only
    place where the logical state becomes connected. -/
def onConnected (s : SocketState) : SocketState :=
  { s with connectionState := .connected }

/-- Embedding of handleSocketError (error / connect_error handlers). -/
def onSocketError (msg : Option String) (s : SocketState) : SocketState :=
  { s with lastError := some (jsOr msg "Socket error occurred")
         , connectionState := .disconnected }

/-- Embedding of the disconnect handler: always drops to disconnected and
    clears the room and typing sets; for a non client initiated reason it
    increments the attempt counter and consults the reconnection policy. -/
def onDisconnect (reason : String) (jit : ℚ) (s : SocketState) : SocketState :=
  let s1 := { s with connectionState := .disconnected
                   , joinedRooms := [], typingUsers := []
                   , socketConnected := false }
  if reason ≠ "io client disconnect" then
    handleReconnection (s1.reconnectAttempts + 1) jit
      { s1 with reconnectAttempts := s1.reconnectAttempts + 1 }
  else s1

/-- Embedding of the new_message handler: the pushed message is appended
    with status sending, with no lookup of any kind. -/
def onNewMessage (m : Message) (s : SocketState) : SocketState :=
  { s with realtimeMessages := s.realtimeMessages ++ [{ m with status := .sending }] }

/-- Embedding of the user_typing handler (selfId is the local user id). -/
def onUserTyping (uid uname : String) (isTyping : Bool) (selfId : Option String)
    (s : SocketState) : SocketState :=
  if (match selfId with | some i => uid != i | none => true) = true then
    if isTyping then { s with typingUsers := insertSet s.typingUsers uname }
    else { s with typingUsers := s.typingUsers.filter (fun u => u != uname) }
  else s

/-- Per-message action of the message_confirmed handler: a matching tempId
    gets the server id and status confirmed, regardless of its current
    status; other messages are untouched. -/
def confirmMsg (t i : String) (m : Message) : Message :=
  if m.tempId = some t then { m with id := i, status := .confirmed } else m

/-- Embedding of the message_confirmed handler: maps confirmMsg over the
    timeline, and (when some message matched) clears the pending fail timer
    for that tempId. -/
def onMessageConfirmed (t i : String) (s : SocketState) : SocketState :=
  { s with realtimeMessages := s.realtimeMessages.map (confirmMsg t i)
         , failTimers :=
            if s.realtimeMessages.any (fun m => m.tempId == some t) then
              s.failTimers.filter (fun u => u != t)
            else s.failTimers }

/-- Embedding of the message_error handler: a matching tempId is set to
    failed unconditionally (no status guard, and the fail timer is not
    removed here). -/
def onMessageError (t : String) (s : SocketState) : SocketState :=
  { s with realtimeMessages := s.realtimeMessages.map (fun m =>
      if m.tempId = some t then { m with status := .failed } else m) }

/-- Embedding of the joined_room handler. -/
def onJoinedRoom (roomId : String) (s : SocketState) : SocketState :=
  { s with joinedRooms := insertSet s.joinedRooms roomId }

/-- Embedding of the left_room handler. -/
def onLeftRoom (roomId : String) (s : SocketState) : SocketState :=
  { s with joinedRooms := s.joinedRooms.filter (fun r => r != roomId) }

/-- Embedding of the 30s fail timer callback for tempId t: a matching
    message still in status sending becomes failed; the timer entry is
    removed from the map in every case. -/
def fireFailTimer (t : String) (s : SocketState) : SocketState :=
  { s with realtimeMessages := s.realtimeMessages.map (fun m =>
      if m.tempId = some t ∧ m.status = .sending then { m with status := .failed }
      else m)
         , failTimers := s.failTimers.filter (fun u => u != t) }

/-- Embedding of the synchronous prefix of connectSocket, up to the point
    where a transport attempt is actually initiated: the entry guards read
    the stateRef snapshot; past the guards the hook marks itself connecting
    and starts the attempt. -/
def connectSocket (s : SocketState) : SocketState :=
  if s.isConnecting = true ∨ s.stateRef.isAuthenticated = false ∨
      s.stateRef.connectionState = .connecting ∨ s.stateRef.isShutdown = true
  then s
  else if maxConnectionAttempts ≤ s.connectionAttempt then s
  else { s with isConnecting := true
              , connectionAttempt := s.connectionAttempt + 1
              , connectionState := .connecting
              , lastError := none
              , attemptsStarted := s.attemptsStarted + 1 }

/-- Embedding of reconnect(): queues isShutdown := false and attempts := 0,
    then calls connectSocket synchronously.  The stateRef snapshot is NOT
    updated here: the syncing effect only runs after the next render, so
    connectSocket still sees the old snapshot. -/
def reconnect (s : SocketState) : SocketState :=
  connectSocket { s with isShutdown := false, reconnectAttempts := 0 }

/-- Embedding of the reconnect timer callback: re-checks authentication,
    connecting state, shutdown and the isConnecting ref at fire time. -/
def fireReconnectTimer (s : SocketState) : SocketState :=
  let s1 := { s with reconnectTimer := none }
  if s1.stateRef.isAuthenticated = true ∧
      s1.stateRef.connectionState ≠ .connecting ∧
      s1.stateRef.isShutdown = false ∧ s1.isConnecting = false then
    connectSocket s1
  else s1

/-- Embedding of the synchronous prefix of sendMessage: the rejection
    guards, the optimistic append and the creation of the fail timer.
    Returns the early result (false on rejection) with the new state. -/
def sendMessagePre (roomId content : String) (messageType : Option String)
    (tempId now : String) (uid uname : Option String) (s : SocketState) :
    Bool × SocketState :=
  if s.socketConnected = false then (false, s)
  else if content.trim = "" then (false, s)
  else
    (true,
      { s with realtimeMessages := s.realtimeMessages ++
          [{ id := tempId, tempId := some tempId, content := content.trim
           , createdAt := now, userId := jsOr uid ""
           , username := jsOr uname "You", roomId := roomId
           , messageType := jsOr messageType "text", status := .sending }]
             , failTimers := insertSet s.failTimers tempId })

/-- Embedding of clearMessages. -/
def clearMessages (s : SocketState) : SocketState :=
  { s with realtimeMessages := [] }

/-- Events delivered to the hook: inbound transport events, timer firings
    and the public operations, each dispatching to its embedded handler. -/
inductive Event
  | evConnect
  | evConnected
  | evDisconnect (reason : String) (jit : ℚ)
  | evSocketError (msg : Option String)
  | evNewMessage (m : Message)
  | evUserTyping (uid uname : String) (isTyping : Bool) (selfId : Option String)
  | evMessageConfirmed (tempId id : String)
  | evMessageError (tempId : String)
  | evJoinedRoom (roomId : String)
  | evLeftRoom (roomId : String)
  | evFailTimer (tempId : String)
  | evReconnectTimer
  | opConnectSocket
  | opReconnect
  | opSendMessage (roomId content : String) (messageType : Option String)
      (tempId now : String) (uid uname : Option String)
  | opCleanup
  | opClearMessages
  deriving DecidableEq

/-- Dispatch of one event to the matching embedded handler. -/
def step : Event → SocketState → SocketState
  | .evConnect, s => onConnect s
  | .evConnected, s => onConnected s
  | .evDisconnect reason jit, s => onDisconnect reason jit s
  | .evSocketError msg, s => onSocketError msg s
  | .evNewMessage m, s => onNewMessage m s
  | .evUserTyping uid uname ty selfId, s => onUserTyping uid uname ty selfId s
  | .evMessageConfirmed t i, s => onMessageConfirmed t i s
  | .evMessageError t, s => onMessageError t s
  | .evJoinedRoom r, s => onJoinedRoom r s
  | .evLeftRoom r, s => onLeftRoom r s
  | .evFailTimer t, s => fireFailTimer t s
  | .evReconnectTimer, s => fireReconnectTimer s
  | .opConnectSocket, s => connectSocket s
  | .opReconnect, s => reconnect s
  | .opSendMessage rid c mt tid now uid uname, s =>
      (sendMessagePre rid c mt tid now uid uname s).2
  | .opCleanup, s => cleanup s
  | .opClearMessages, s => clearMessages s

/- ---------- Helper lemmas ---------- -/

/-- Outcome of handleReconnection on the reconnect timer: either nothing is
    scheduled, or exactly the backoff delay is scheduled. -/
theorem handleReconnection_timer (n : Nat) (jit : ℚ) (s : SocketState) :
    (handleReconnection n jit s).reconnectTimer = none ∨
    (handleReconnection n jit s).reconnectTimer = some (reconnectDelay n jit) := by
  simp only [handleReconnection]
  split
  · split
    · simp [cleanup]
    · simp
  · simp

/-- Rooms and typing sets stay empty across handleReconnection. -/
theorem handleReconnection_rooms_typing (n : Nat) (jit : ℚ) (s : SocketState)
    (hj : s.joinedRooms = []) (ht : s.typingUsers = []) :
    (handleReconnection n jit s).joinedRooms = [] ∧
    (handleReconnection n jit s).typingUsers = [] := by
  simp only [handleReconnection]
  split
  · split
    · simp [cleanup]
    · simp [hj, ht]
  · simp [hj, ht]

/- ---------- C3 ---------- -/

/-- C3: for every attempt count n from 0 to 4, whenever handleReconnection
    schedules a reconnect with jitter in [0, 1000), the scheduled delay d
    lies in the half open interval
    [min(1000 * 2 ^ n, 30000), min(1000 * 2 ^ n, 30000) + 1000). -/
theorem backoff_delay_within_bounds (n : Nat) (jit : ℚ) (s : SocketState)
    (d : ℚ) (hn : n ≤ 4) (hj0 : 0 ≤ jit) (hj1 : jit < 1000)
    (hs : (handleReconnection n jit s).reconnectTimer = some d) :
    min ((1000 : ℚ) * 2 ^ n) 30000 ≤ d ∧
      d < min ((1000 : ℚ) * 2 ^ n) 30000 + 1000 := by
  have hd : d = reconnectDelay n jit := by
    rcases handleReconnection_timer n jit s with h | h
    · rw [h] at hs; cases hs
    · rw [h] at hs; exact (Option.some.injEq _ _ ▸ hs).symm
  subst hd
  unfold reconnectDelay baseDelay
  constructor
  · linarith
  · linarith

/-- Witness for C3 at n = 0, jitter 500, the initial hook state. -/
def c3s : SocketState := {}

theorem backoff_delay_within_bounds_witness :
    (0 : Nat) ≤ 4 ∧ (0 : ℚ) ≤ 500 ∧ (500 : ℚ) < 1000 ∧
    (handleReconnection 0 500 c3s).reconnectTimer = some 1500 ∧
    (min ((1000 : ℚ) * 2 ^ 0) 30000 ≤ 1500 ∧
      (1500 : ℚ) < min ((1000 : ℚ) * 2 ^ 0) 30000 + 1000) :=
  ⟨by norm_num, by norm_num, by norm_num,
    by
      simp [handleReconnection, c3s, reconnectDelay, baseDelay,
        maxReconnectAttempts, min_def]
      norm_num,
    backoff_delay_within_bounds 0 500 c3s 1500 (by norm_num) (by norm_num)
      (by norm_num)
      (by
        simp [handleReconnection, c3s, reconnectDelay, baseDelay,
          maxReconnectAttempts, min_def]
        norm_num)⟩

/- ---------- C6 ---------- -/

/-- C6: sendMessage returns failure and leaves the state untouched (no
    timeline append, no fail timer) when the transport is not connected or
    the trimmed content is empty. -/
theorem sendMessage_rejected_without_side_effects (roomId content : String)
    (mt : Option String) (tempId now : String) (uid uname : Option String)
    (s : SocketState)
    (h : s.socketConnected = false ∨ content.trim = "") :
    sendMessagePre roomId content mt tempId now uid uname s = (false, s) := by
  unfold sendMessagePre
  rcases h with h | h
  · simp [h]
  · by_cases hc : s.socketConnected = false
    · simp [hc]
    · simp [hc, h]

/-- Witness for C6: sendMessage of "hello" to room "r1" while disconnected. -/
def c6s : SocketState := {}

theorem sendMessage_rejected_witness :
    (c6s.socketConnected = false ∨ ("hello").trim = "") ∧
    sendMessagePre "r1" "hello" none "temp1" "now" none none c6s =
      (false, c6s) :=
  ⟨Or.inl rfl,
    sendMessage_rejected_without_side_effects "r1" "hello" none "temp1" "now"
      none none c6s (Or.inl rfl)⟩

/- ---------- C7 ---------- -/

/-- C7: any disconnect, voluntary via cleanup or of any transport reason,
    clears both the joined rooms set and the typing users set. -/
theorem disconnect_clears_rooms_and_typing (reason : String) (jit : ℚ)
    (s : SocketState) :
    (onDisconnect reason jit s).joinedRooms = [] ∧
    (onDisconnect reason jit s).typingUsers = [] ∧
    (cleanup s).joinedRooms = [] ∧ (cleanup s).typingUsers = [] := by
  refine ⟨?_, ?_, rfl, rfl⟩
  · simp only [onDisconnect]
    split
    · exact (handleReconnection_rooms_typing _ _ _ rfl rfl).1
    · rfl
  · simp only [onDisconnect]
    split
    · exact (handleReconnection_rooms_typing _ _ _ rfl rfl).2
    · rfl

/- ---------- C2 ---------- -/

/-- C2: when the attempt counter reaches the ceiling of 5 (the fifth
    consecutive involuntary disconnect, from a state whose snapshot is not
    yet shut down), the shutdown flag becomes true and no reconnect is
    scheduled; and while the snapshot records shutdown, connectSocket is a
    no-op, in particular on the resulting synced state. -/
theorem shutdown_after_five_disconnects (reason : String) (jit : ℚ)
    (s t : SocketState)
    (hr : reason ≠ "io client disconnect")
    (h4 : s.reconnectAttempts = 4)
    (hsd : s.stateRef.isShutdown = false)
    (ht : t.stateRef.isShutdown = true) :
    (onDisconnect reason jit s).isShutdown = true ∧
    (onDisconnect reason jit s).reconnectTimer = none ∧
    connectSocket t = t ∧
    connectSocket (syncStateRef (onDisconnect reason jit s)) =
      syncStateRef (onDisconnect reason jit s) := by
  have hno : ∀ u : SocketState, u.stateRef.isShutdown = true →
      connectSocket u = u := by
    intro u hu
    unfold connectSocket
    rw [if_pos (Or.inr (Or.inr (Or.inr hu)))]
  have h1 : (onDisconnect reason jit s).isShutdown = true := by
    simp [onDisconnect, handleReconnection, cleanup, hr, h4, hsd,
      maxReconnectAttempts]
  have h2 : (onDisconnect reason jit s).reconnectTimer = none := by
    simp [onDisconnect, handleReconnection, cleanup, hr, h4, hsd,
      maxReconnectAttempts]
  exact ⟨h1, h2, hno t ht, hno _ (by simp [syncStateRef, h1])⟩

/-- Witness states for C2: a state on its fifth involuntary disconnect and
    a shut down state on which connectSocket is attempted. -/
def c2s : SocketState :=
  { reconnectAttempts := 4, isAuthenticated := true
  , stateRef := ⟨.disconnected, true, false⟩ }

def c2t : SocketState :=
  { isShutdown := true, isAuthenticated := true
  , stateRef := ⟨.disconnected, true, true⟩ }

theorem shutdown_after_five_disconnects_witness :
    ("transport close" ≠ "io client disconnect") ∧
    c2s.reconnectAttempts = 4 ∧ c2s.stateRef.isShutdown = false ∧
    c2t.stateRef.isShutdown = true ∧
    ((onDisconnect "transport close" 0 c2s).isShutdown = true ∧
     (onDisconnect "transport close" 0 c2s).reconnectTimer = none ∧
     connectSocket c2t = c2t ∧
     connectSocket (syncStateRef (onDisconnect "transport close" 0 c2s)) =
       syncStateRef (onDisconnect "transport close" 0 c2s)) :=
  ⟨by decide, rfl, rfl, rfl,
    shutdown_after_five_disconnects "transport close" 0 c2s c2t (by decide)
      rfl rfl rfl⟩

/- ---------- C5 ---------- -/

/-- Witness state for C5: shut down, authenticated, disconnected, with the
    stateRef snapshot in sync with the committed state. -/
def c5s : SocketState :=
  { connectionState := .disconnected, isShutdown := true
  , isAuthenticated := true, stateRef := ⟨.disconnected, true, true⟩ }

/-- State reconnect() queues before its synchronous connectSocket() call. -/
def c5after : SocketState :=
  { c5s with isShutdown := false, reconnectAttempts := 0 }

/-- C5 (code bug evaluation): calling reconnect() while shut down clears
    the shutdown flag and resets the attempt counter, but the synchronous
    connectSocket() call inside it reads the stale stateRef snapshot, which
    still records shutdown, and is suppressed: no transport attempt starts
    and the connection state never enters connecting.  The last conjunct
    shows the counterfactual: had the snapshot been synced first, the same
    guards would have let the attempt proceed. -/
theorem manual_reconnect_suppressed_by_stale_ref :
    c5s.isShutdown = true ∧ c5s.isAuthenticated = true ∧
    c5s.stateRef.isShutdown = c5s.isShutdown ∧
    (reconnect c5s).isShutdown = false ∧
    (reconnect c5s).reconnectAttempts = 0 ∧
    (reconnect c5s).attemptsStarted = c5s.attemptsStarted ∧
    (reconnect c5s).connectionState ≠ ConnectionState.connecting ∧
    reconnect c5s = c5after ∧
    (connectSocket (syncStateRef c5after)).connectionState =
      ConnectionState.connecting := by
  decide

/- ---------- C4 ---------- -/

/-- Added element of a JavaScript Set is a member. -/
theorem mem_insertSet_self (l : List String) (x : String) :
    x ∈ insertSet l x := by
  unfold insertSet
  split
  · assumption
  · simp

/-- Scenario of C4: a joined_room event for r1, a committed render, then a
    disconnect with the given reason and jitter. -/
def joinThenDisconnect (reason : String) (jit : ℚ) (s : SocketState) :
    SocketState :=
  onDisconnect reason jit (syncStateRef (onJoinedRoom "r1" s))

/-- C4 (amended): while connected with attempt counter 0, a joined_room
    event for r1 makes the joined rooms contain r1; a subsequent
    involuntary disconnect empties the rooms, sets the counter to 1, and
    schedules a reconnect whose delay is min(1000 * 2 ^ 1, 30000) + jitter,
    which lies in [2000, 3000) — not in the 1000 to 2000 range the claim
    states, because the counter is incremented before the delay is
    computed. -/
theorem scenario_join_then_disconnect (reason : String) (jit : ℚ)
    (s : SocketState)
    (hr : reason ≠ "io client disconnect") (hj0 : 0 ≤ jit) (hj1 : jit < 1000)
    (hconn : s.connectionState = ConnectionState.connected)
    (hatt : s.reconnectAttempts = 0) (hsd : s.isShutdown = false) :
    "r1" ∈ (onJoinedRoom "r1" s).joinedRooms ∧
    (joinThenDisconnect reason jit s).joinedRooms = [] ∧
    (joinThenDisconnect reason jit s).reconnectAttempts = 1 ∧
    (joinThenDisconnect reason jit s).reconnectTimer =
      some (min ((1000 : ℚ) * 2 ^ 1) 30000 + jit) ∧
    (2000 : ℚ) ≤ min ((1000 : ℚ) * 2 ^ 1) 30000 + jit ∧
    min ((1000 : ℚ) * 2 ^ 1) 30000 + jit < 3000 := by
  have hmin : min ((1000 : ℚ) * 2 ^ 1) 30000 = (2000 : ℚ) := by
    norm_num [min_def]
  refine ⟨mem_insertSet_self s.joinedRooms "r1", ?_, ?_, ?_, ?_, ?_⟩
  · simp [joinThenDisconnect, onDisconnect, handleReconnection, syncStateRef,
      onJoinedRoom, hr, hatt, hconn, hsd, maxReconnectAttempts]
  · simp [joinThenDisconnect, onDisconnect, handleReconnection, syncStateRef,
      onJoinedRoom, hr, hatt, hconn, hsd, maxReconnectAttempts]
  · simp [joinThenDisconnect, onDisconnect, handleReconnection, syncStateRef,
      onJoinedRoom, hr, hatt, hconn, hsd, maxReconnectAttempts,
      reconnectDelay, baseDelay]
  · rw [hmin]; linarith
  · rw [hmin]; linarith

/-- Witness state for C4: connected, authenticated, counter 0, snapshot in
    sync. -/
def c4s : SocketState :=
  { connectionState := .connected, isAuthenticated := true
  , stateRef := ⟨.connected, true, false⟩, socketConnected := true }

theorem scenario_join_then_disconnect_witness :
    ("transport close" ≠ "io client disconnect") ∧ ((0 : ℚ) ≤ 500) ∧
    ((500 : ℚ) < 1000) ∧ c4s.connectionState = ConnectionState.connected ∧
    c4s.reconnectAttempts = 0 ∧ c4s.isShutdown = false ∧
    ("r1" ∈ (onJoinedRoom "r1" c4s).joinedRooms ∧
     (joinThenDisconnect "transport close" 500 c4s).joinedRooms = [] ∧
     (joinThenDisconnect "transport close" 500 c4s).reconnectAttempts = 1 ∧
     (joinThenDisconnect "transport close" 500 c4s).reconnectTimer =
        some (min ((1000 : ℚ) * 2 ^ 1) 30000 + 500) ∧
     (2000 : ℚ) ≤ min ((1000 : ℚ) * 2 ^ 1) 30000 + 500 ∧
     min ((1000 : ℚ) * 2 ^ 1) 30000 + 500 < 3000) :=
  ⟨by decide, by norm_num, by norm_num, rfl, rfl, rfl,
    scenario_join_then_disconnect "transport close" 500 c4s (by decide)
      (by norm_num) (by norm_num) rfl rfl rfl⟩

/-- Counterexample to C4 as stated: in the very scenario of the claim with
    jitter 0, the scheduled delay is 2000 ms, which does not lie below
    2000, so the claimed 1000 to 2000 ms range is wrong. -/
theorem first_reconnect_delay_not_below_2000 :
    (joinThenDisconnect "transport close" 0 c4s).reconnectAttempts = 1 ∧
    (joinThenDisconnect "transport close" 0 c4s).reconnectTimer =
      some 2000 ∧
    ¬ ((2000 : ℚ) < 2000) := by
  refine ⟨by decide, ?_, by norm_num⟩
  simp [joinThenDisconnect, onDisconnect, handleReconnection, syncStateRef,
    onJoinedRoom, c4s, maxReconnectAttempts, reconnectDelay, baseDelay,
    min_def]
  norm_num

/- ---------- C8 ---------- -/

/-- connectSocket either leaves the connection state alone (a guard fired)
    or enters connecting; it never asserts connected. -/
theorem connectSocket_connectionState (s : SocketState) :
    (connectSocket s).connectionState = s.connectionState ∨
    (connectSocket s).connectionState = ConnectionState.connecting := by
  unfold connectSocket
  split
  · exact Or.inl rfl
  · split
    · exact Or.inl rfl
    · exact Or.inr rfl

/-- handleReconnection keeps a disconnected state disconnected. -/
theorem handleReconnection_connectionState (n : Nat) (j : ℚ) (s : SocketState)
    (h : s.connectionState = ConnectionState.disconnected) :
    (handleReconnection n j s).connectionState =
      ConnectionState.disconnected := by
  simp only [handleReconnection]
  split
  · split
    · rfl
    · exact h
  · exact h

/-- The disconnect handler always lands in the disconnected state. -/
theorem onDisconnect_connectionState (r : String) (j : ℚ) (s : SocketState) :
    (onDisconnect r j s).connectionState = ConnectionState.disconnected := by
  simp only [onDisconnect]
  split
  · exact handleReconnection_connectionState _ _ _ rfl
  · rfl

/-- Typing events never touch the connection state. -/
theorem onUserTyping_connectionState (uid uname : String) (ty : Bool)
    (selfId : Option String) (s : SocketState) :
    (onUserTyping uid uname ty selfId s).connectionState =
      s.connectionState := by
  unfold onUserTyping
  split
  · split <;> rfl
  · rfl

/-- sendMessage never touches the connection state. -/
theorem sendMessagePre_connectionState (rid c : String) (mt : Option String)
    (tid now : String) (uid uname : Option String) (s : SocketState) :
    ((sendMessagePre rid c mt tid now uid uname s).2).connectionState =
      s.connectionState := by
  unfold sendMessagePre
  split
  · rfl
  · split
    · rfl
    · rfl

/-- The reconnect timer callback either leaves the connection state alone
    or (via connectSocket) enters connecting. -/
theorem fireReconnectTimer_connectionState (s : SocketState) :
    (fireReconnectTimer s).connectionState = s.connectionState ∨
    (fireReconnectTimer s).connectionState = ConnectionState.connecting := by
  simp only [fireReconnectTimer]
  split
  · rcases connectSocket_connectionState { s with reconnectTimer := none }
      with h | h
    · exact Or.inl h
    · exact Or.inr h
  · exact Or.inl rfl

/-- C8: the transport level connect event resets the reconnect and
    connection attempt counters to 0 and leaves the logical connection
    state untouched; and across every event or operation of the hook, the
    state can be connected afterwards only if the event was the connected
    handshake acknowledgement or the state was already connected. -/
theorem transport_open_vs_handshake (s : SocketState) (e : Event) :
    ((step .evConnect s).reconnectAttempts = 0 ∧
     (step .evConnect s).connectionAttempt = 0 ∧
     (step .evConnect s).connectionState = s.connectionState) ∧
    ((step e s).connectionState = ConnectionState.connected →
      e = Event.evConnected ∨
        s.connectionState = ConnectionState.connected) := by
  refine ⟨⟨rfl, rfl, rfl⟩, ?_⟩
  intro h
  cases e with
  | evConnect => exact Or.inr h
  | evConnected => exact Or.inl rfl
  | evDisconnect r j =>
      simp only [step] at h
      rw [onDisconnect_connectionState] at h
      exact ConnectionState.noConfusion h
  | evSocketError m => exact ConnectionState.noConfusion h
  | evNewMessage m => exact Or.inr h
  | evUserTyping a b c d =>
      simp only [step] at h
      rw [onUserTyping_connectionState] at h
      exact Or.inr h
  | evMessageConfirmed t i => exact Or.inr h
  | evMessageError t => exact Or.inr h
  | evJoinedRoom r => exact Or.inr h
  | evLeftRoom r => exact Or.inr h
  | evFailTimer t => exact Or.inr h
  | evReconnectTimer =>
      simp only [step] at h
      rcases fireReconnectTimer_connectionState s with hc | hc
      · rw [hc] at h; exact Or.inr h
      · rw [hc] at h; exact ConnectionState.noConfusion h
  | opConnectSocket =>
      simp only [step] at h
      rcases connectSocket_connectionState s with hc | hc
      · rw [hc] at h; exact Or.inr h
      · rw [hc] at h; exact ConnectionState.noConfusion h
  | opReconnect =>
      simp only [step, reconnect] at h
      rcases connectSocket_connectionState
          { s with isShutdown := false, reconnectAttempts := 0 } with hc | hc
      · rw [hc] at h; exact Or.inr h
      · rw [hc] at h; exact ConnectionState.noConfusion h
  | opSendMessage rid c mt tid now uid uname =>
      simp only [step] at h
      rw [sendMessagePre_connectionState] at h
      exact Or.inr h
  | opCleanup => exact ConnectionState.noConfusion h
  | opClearMessages => exact Or.inr h

/-- Witness state for C8. -/
def c8s : SocketState :=
  { connectionState := .disconnected, reconnectAttempts := 3
  , connectionAttempt := 2, isAuthenticated := true }

theorem transport_open_vs_handshake_witness :
    ((step .evConnect c8s).reconnectAttempts = 0 ∧
     (step .evConnect c8s).connectionAttempt = 0 ∧
     (step .evConnect c8s).connectionState = c8s.connectionState) ∧
    (Event.evConnected = Event.evConnected ∨
      c8s.connectionState = ConnectionState.connected) :=
  ⟨(transport_open_vs_handshake c8s .evConnected).1,
    (transport_open_vs_handshake c8s .evConnected).2 (by decide)⟩

/- ---------- List helper lemmas ---------- -/

/-- Mapping a function that fixes every member of a list is the identity. -/
theorem map_id_of_mem {α : Type} (l : List α) (f : α → α)
    (h : ∀ a ∈ l, f a = a) : l.map f = l := by
  induction l with
  | nil => rfl
  | cons a l ih =>
      simp only [List.map_cons, List.cons.injEq]
      exact ⟨h a (by simp), ih (fun b hb => h b (by simp [hb]))⟩

/-- getD of a mapped list at an index below the length. -/
theorem getD_map_of_lt (l : List Message) (g : Message → Message) (i : Nat)
    (d : Message) (hi : i < l.length) :
    (l.map g).getD i d = g (l.getD i d) := by
  induction l generalizing i with
  | nil => exact absurd hi (by simp)
  | cons a l ih =>
      cases i with
      | zero => rfl
      | succ n =>
          simp only [List.map_cons, List.getD_cons_succ]
          exact ih n (by simpa using hi)

/-- Filtering out one string twice is the same as filtering it out once. -/
theorem filter_ne_idem (l : List String) (t : String) :
    ((l.filter fun u => u != t).filter fun u => u != t) =
      l.filter fun u => u != t := by
  induction l with
  | nil => rfl
  | cons a l ih =>
      by_cases h : a = t
      · simp [List.filter_cons, h, ih]
      · simp [List.filter_cons, h, ih]

/- ---------- C1 ---------- -/

/-- confirmMsg never changes the correlation id of a message. -/
theorem confirmMsg_tempId (t i : String) (m : Message) :
    (confirmMsg t i m).tempId = m.tempId := by
  unfold confirmMsg
  split <;> rfl

/-- confirmMsg is idempotent on each message. -/
theorem confirmMsg_idem (t i : String) (m : Message) :
    confirmMsg t i (confirmMsg t i m) = confirmMsg t i m := by
  unfold confirmMsg
  by_cases h : m.tempId = some t
  · simp [h]
  · simp [h]

/-- Mapping confirmMsg twice over a timeline equals mapping it once. -/
theorem map_confirm_idem (t i : String) (l : List Message) :
    ((l.map (confirmMsg t i)).map (confirmMsg t i)) = l.map (confirmMsg t i) := by
  induction l with
  | nil => rfl
  | cons a l ih => simp [confirmMsg_idem, ih]

/-- The tempId match test is invariant under confirmMsg. -/
theorem any_map_confirm (t i : String) (l : List Message) :
    ((l.map (confirmMsg t i)).any fun m => m.tempId == some t) =
      (l.any fun m => m.tempId == some t) := by
  induction l with
  | nil => rfl
  | cons a l ih => simp [List.any_cons, ih, confirmMsg_tempId]

/-- C1 (amended): when every message carrying tempId t is already in a
    terminal status (confirmed or failed, never sending), the firing of the
    30s failure timer leaves the timeline unchanged, and delivering the
    same message_confirmed event a second time is a no-op on the whole
    state.  (The claim fails as stated only for message_error, which
    overwrites even a confirmed message; see the counterexample.) -/
theorem terminal_status_stability (t i : String) (s : SocketState)
    (h : ∀ m ∈ s.realtimeMessages,
      m.tempId = some t → m.status ≠ MsgStatus.sending) :
    (fireFailTimer t s).realtimeMessages = s.realtimeMessages ∧
    onMessageConfirmed t i (onMessageConfirmed t i s) =
      onMessageConfirmed t i s := by
  constructor
  · refine map_id_of_mem _ _ ?_
    intro m hm
    rw [if_neg]
    rintro ⟨h1, h2⟩
    exact h m hm h1 h2
  · have h1 := map_confirm_idem t i s.realtimeMessages
    have h2 := any_map_confirm t i s.realtimeMessages
    by_cases hp : (s.realtimeMessages.any fun m => m.tempId == some t) = true
    · simp only [onMessageConfirmed, h2, hp, if_true, h1, filter_ne_idem]
    · have hp2 : (s.realtimeMessages.any fun m => m.tempId == some t) = false :=
        by simpa using hp
      simp only [onMessageConfirmed, h2, hp2, Bool.false_eq_true, if_false, h1]

/-- Witness message and state for C1: a single confirmed message. -/
def c1m : Message :=
  { id := "42", tempId := some "t1", content := "hi", createdAt := "now"
  , userId := "u", username := "alice", roomId := "r1", messageType := "text"
  , status := .confirmed }

def c1s : SocketState := { realtimeMessages := [c1m], failTimers := [] }

theorem terminal_status_stability_witness :
    (∀ m ∈ c1s.realtimeMessages,
      m.tempId = some "t1" → m.status ≠ MsgStatus.sending) ∧
    ((fireFailTimer "t1" c1s).realtimeMessages = c1s.realtimeMessages ∧
     onMessageConfirmed "t1" "42" (onMessageConfirmed "t1" "42" c1s) =
       onMessageConfirmed "t1" "42" c1s) :=
  ⟨by decide, terminal_status_stability "t1" "42" c1s (by decide)⟩

/-- Counterexample to C1 as stated: a message_error event for tempId t1
    delivered after the message is already confirmed still flips its
    status to failed — the event is not ignored. -/
theorem message_error_overrides_confirmed :
    (c1s.realtimeMessages.getD 0 dummyMsg).status = MsgStatus.confirmed ∧
    ((onMessageError "t1" c1s).realtimeMessages.getD 0 dummyMsg).status =
      MsgStatus.failed := by
  decide

/- ---------- C9 ---------- -/

/-- Witness message and state for C9: the timeline already holds an entry
    with tempId t1, and the pushed message carries the same tempId. -/
def c9m : Message :=
  { id := "tmp-1", tempId := some "t1", content := "hi", createdAt := "now"
  , userId := "u", username := "alice", roomId := "r1", messageType := "text"
  , status := .sending }

def c9push : Message :=
  { id := "srv-9", tempId := some "t1", content := "hi", createdAt := "now"
  , userId := "u", username := "alice", roomId := "r1", messageType := "text"
  , status := .confirmed }

def c9s : SocketState := { realtimeMessages := [c9m] }

/-- C9 (amended): an inbound new_message push is appended to the timeline
    with status sending unconditionally — the handler performs no tempId
    lookup — and it never overwrites an existing entry: all prior entries
    are preserved at their positions and the push lands at the end. -/
theorem new_message_unconditional_append (m : Message) (s : SocketState)
    (i : Nat) (hi : i < s.realtimeMessages.length) :
    (onNewMessage m s).realtimeMessages.length =
      s.realtimeMessages.length + 1 ∧
    (onNewMessage m s).realtimeMessages.getD i dummyMsg =
      s.realtimeMessages.getD i dummyMsg ∧
    (onNewMessage m s).realtimeMessages.getD s.realtimeMessages.length dummyMsg
      = { m with status := MsgStatus.sending } := by
  refine ⟨by simp [onNewMessage], ?_, ?_⟩
  · unfold onNewMessage
    simp only []
    rw [List.getD_append _ _ _ _ hi]
  · unfold onNewMessage
    simp only []
    rw [List.getD_append_right _ _ _ _ (le_refl _)]
    simp

theorem new_message_unconditional_append_witness :
    (0 < c9s.realtimeMessages.length) ∧
    ((onNewMessage c9push c9s).realtimeMessages.length =
       c9s.realtimeMessages.length + 1 ∧
     (onNewMessage c9push c9s).realtimeMessages.getD 0 dummyMsg =
       c9s.realtimeMessages.getD 0 dummyMsg ∧
     (onNewMessage c9push c9s).realtimeMessages.getD
        c9s.realtimeMessages.length dummyMsg =
       { c9push with status := MsgStatus.sending }) :=
  ⟨by decide, new_message_unconditional_append c9push c9s 0 (by decide)⟩

/-- Counterexample to C9 as stated: an existing local entry matches the
    tempId of the pushed message, yet the push is still appended (the
    timeline grows), where the claim says it must not be. -/
theorem new_message_appended_despite_match :
    (c9s.realtimeMessages.any fun m => m.tempId == some "t1") = true ∧
    c9push.tempId = some "t1" ∧
    (onNewMessage c9push c9s).realtimeMessages.length =
      c9s.realtimeMessages.length + 1 := by
  decide

/- ---------- C10 ---------- -/

/-- C10: when the 30s failure timer for tempId t fires, its entry is
    removed from the pending timer map in every case, the timeline length
    is unchanged, a message whose status is no longer sending (or whose
    tempId differs) is left exactly as it was, and a matching message still
    sending becomes failed. -/
theorem failTimer_only_fails_sending (t : String) (s : SocketState) (i : Nat)
    (hi : i < s.realtimeMessages.length) :
    (fireFailTimer t s).failTimers = (s.failTimers.filter fun u => u != t) ∧
    (fireFailTimer t s).realtimeMessages.length =
      s.realtimeMessages.length ∧
    ((s.realtimeMessages.getD i dummyMsg).status ≠ MsgStatus.sending →
      (fireFailTimer t s).realtimeMessages.getD i dummyMsg =
        s.realtimeMessages.getD i dummyMsg) ∧
    ((s.realtimeMessages.getD i dummyMsg).tempId ≠ some t →
      (fireFailTimer t s).realtimeMessages.getD i dummyMsg =
        s.realtimeMessages.getD i dummyMsg) ∧
    ((s.realtimeMessages.getD i dummyMsg).tempId = some t →
      (s.realtimeMessages.getD i dummyMsg).status = MsgStatus.sending →
      (fireFailTimer t s).realtimeMessages.getD i dummyMsg =
        { s.realtimeMessages.getD i dummyMsg with
            status := MsgStatus.failed }) := by
  have hget := getD_map_of_lt s.realtimeMessages
    (fun m => if m.tempId = some t ∧ m.status = MsgStatus.sending
      then { m with status := MsgStatus.failed } else m) i dummyMsg hi
  refine ⟨rfl, by simp [fireFailTimer], ?_, ?_, ?_⟩
  · intro hstat
    rw [show (fireFailTimer t s).realtimeMessages =
        s.realtimeMessages.map _ from rfl, hget]
    beta_reduce
    rw [if_neg]
    rintro ⟨h1, h2⟩
    exact hstat h2
  · intro htid
    rw [show (fireFailTimer t s).realtimeMessages =
        s.realtimeMessages.map _ from rfl, hget]
    beta_reduce
    rw [if_neg]
    rintro ⟨h1, h2⟩
    exact htid h1
  · intro htid hstat
    rw [show (fireFailTimer t s).realtimeMessages =
        s.realtimeMessages.map _ from rfl, hget]
    beta_reduce
    rw [if_pos ⟨htid, hstat⟩]

/-- Witness message and state for C10: a confirmed message whose timer is
    still pending alongside an unrelated timer. -/
def c10m : Message :=
  { id := "42", tempId := some "t1", content := "hi", createdAt := "now"
  , userId := "u", username := "alice", roomId := "r1", messageType := "text"
  , status := .confirmed }

def c10s : SocketState :=
  { realtimeMessages := [c10m], failTimers := ["t1", "t2"] }

theorem failTimer_only_fails_sending_witness :
    (0 < c10s.realtimeMessages.length) ∧
    (fireFailTimer "t1" c10s).failTimers =
      (c10s.failTimers.filter fun u => u != "t1") ∧
    (fireFailTimer "t1" c10s).realtimeMessages.getD 0 dummyMsg =
      c10s.realtimeMessages.getD 0 dummyMsg :=
  ⟨by decide, (failTimer_only_fails_sending "t1" c10s 0 (by decide)).1,
    (failTimer_only_fails_sending "t1" c10s 0 (by decide)).2.2.1 (by decide)⟩

end AetherConnect
